import Mathlib

/-!
Shallow embedding of the custom GNN layers of src/IOB/layers.py.

Matrices are modelled as total functions from a pair of natural indices to a
real entry, with the intended dimensions passed explicitly to each operation;
this mirrors the dynamically shaped tensors of the source.  The leading
singleton batch dimension of the source tensors is squeezed away before any
arithmetic, so the embedding works directly on the squeezed 2-D data.
Tensor primitives (matmul, eye, relu, reshape) are embedded as the
corresponding real-valued operations.  Python exceptions raised by the layer
code and visible to the caller are modelled with Except.  Two defects of the
Adjacency forward path are modelled faithfully: item assignment on the
immutable zero tensor of _learn_adjacencies raises TypeError at the first
entry equal to 0 or 1, and the per-hop MLP lines call tf.matmul with a single
argument, a TypeError whenever they are reached.  The weight-shape assertions
of Adjacency.call sit inside a bare try/except whose handler only prints, so
they are embedded as having no effect (see Adjacency.call below).
-/

/-- A dynamically shaped real matrix: entry access by row and column index. -/
def Mat : Type := ℕ → ℕ → ℝ

/-- The all-zero matrix, also used as out-of-range default when reading lists. -/
noncomputable def matZero : Mat := fun _ _ => 0

/-- tf.matmul, with the shared inner dimension k passed explicitly. -/
noncomputable def matMul (k : ℕ) (A B : Mat) : Mat :=
  fun i j => ∑ t ∈ Finset.range k, A i t * B t j

/-- tf.eye: the identity matrix, any size. -/
noncomputable def matEye : Mat := fun i j => if i = j then 1 else 0

/-- tf.nn.relu on a scalar. -/
noncomputable def relu (x : ℝ) : ℝ := max x 0

/-- tf.nn.relu applied entrywise to a matrix. -/
noncomputable def matRelu (A : Mat) : Mat := fun i j => relu (A i j)

/-- tf.math.add: entrywise sum of two matrices. -/
noncomputable def matAdd (A B : Mat) : Mat := fun i j => A i j + B i j

/-- Row vector times matrix, with the shared dimension k passed explicitly. -/
noncomputable def vecMatMul (k : ℕ) (v : ℕ → ℝ) (W : Mat) : ℕ → ℝ :=
  fun j => ∑ t ∈ Finset.range k, v t * W t j

/-- tf.nn.relu applied entrywise to a vector. -/
noncomputable def vecRelu (v : ℕ → ℝ) : ℕ → ℝ := fun t => relu (v t)

/-- tf.reshape(A, [-1]): row-major flattening of an n-column matrix. -/
def flatten (n : ℕ) (A : Mat) : ℕ → ℝ := fun t => A (t / n) (t % n)

/-- tf.reshape(v, shape): row-major reshaping of a vector back to n columns. -/
def unflatten (n : ℕ) (v : ℕ → ℝ) : Mat := fun i j => v (i * n + j)

/-- All entries of A vanish outside the leading r-by-c block: A has shape r times c
up to the zero padding of the unshaped representation. -/
def IsShaped (r c : ℕ) (A : Mat) : Prop := ∀ i j, r ≤ i ∨ c ≤ j → A i j = 0

/-- Python exceptions that the layer code raises to its caller.  The first two
are the assertion failures the spec calls ShapeError.  The last two are the
TypeErrors of the broken Adjacency forward path: item assignment on an
immutable eager tensor in _learn_adjacencies, and tf.matmul applied to a
single argument (its required argument b missing). -/
inductive LayerError where
  | notSquare : LayerError
  | adjListLength (len : ℕ) : LayerError
  | itemAssignment : LayerError
  | matmulMissingArg : LayerError
deriving DecidableEq

/-- The GraphOperator layer object: its only state is the power argument stored
by the constructor, which the source marks as not used. -/
structure GraphOperator where
  power : ℕ

/-- GraphOperator.call: asserts that the two trailing dimensions agree (raising
the not-square error otherwise), squeezes the batch dimension away, and returns
the list of tf.eye n, adj matmul adj, and the previous product matmul adj. -/
noncomputable def GraphOperator.call (op : GraphOperator) (n m : ℕ) (adj : Mat) :
    Except LayerError (List Mat) :=
  if n = m then
    let A0 := matEye
    let A1 := matMul n adj adj
    let A2 := matMul n A1 adj
    .ok [A0, A1, A2]
  else
    .error .notSquare

/-- The Adjacency layer object: construction-time sizes and the six trainable
weight matrices created by build, each of declared shape
(max_nodes * max_nodes, max_nodes * max_nodes). -/
structure Adjacency where
  max_nodes : ℕ
  n_features : ℕ
  w0_1 : Mat
  w0_2 : Mat
  w1_1 : Mat
  w1_2 : Mat
  w2_1 : Mat
  w2_2 : Mat

/-- self.input_units = max_nodes * max_nodes. -/
def Adjacency.input_units (L : Adjacency) : ℕ := L.max_nodes * L.max_nodes

open scoped Classical in
/-- Adjacency._learn_adjacencies: new_adj = tf.zeros_like(adj) is an immutable
eager tensor.  The nested loops walk the r rows and c columns of adj; at the
first cell whose entry equals 0 or 1 the loop body performs item assignment on
new_adj, which eager tensors do not support, so the call raises TypeError (the
norm on the right-hand side is evaluated first but its value is discarded).
When no iterated entry equals 0 or 1 nothing is ever written and the zero
matrix is returned. -/
noncomputable def Adjacency.learnAdjacencies (r c : ℕ) (adj node_vec : Mat) :
    Except LayerError Mat :=
  if ∃ ik ∈ Finset.range r, ∃ jk ∈ Finset.range c,
      adj ik jk = 0 ∨ adj ik jk = 1 then
    .error .itemAssignment
  else
    .ok matZero

/-- Adjacency.call on the three hop matrices (each n by n after squeezing) and
the node feature matrix (n by f).  The length-3 assertion on the hop list is
raised to the caller.  The two weight-shape assertions of the source sit inside
a try/except block whose handler only prints an error line; they also read the
attribute w0, which the layer never defines, so that block always falls through
with no effect on the call and is embedded as a no-op.  The call then applies
the distance transform to each hop matrix, propagating its TypeError; when all
three return, the flattening is pure reshaping and the first forward-pass line
applies tf.matmul to the single argument adj_0 * w0_1, so its required
argument b is missing and a TypeError is raised before any ok result,
whatever the weights are. -/
noncomputable def Adjacency.call (L : Adjacency) (n f : ℕ) (adj_list : List Mat)
    (node_vec : Mat) : Except LayerError (List Mat) := do
  if adj_list.length = 3 then
    let _adj_0 ← Adjacency.learnAdjacencies n n (adj_list.getD 0 matZero) node_vec
    let _adj_1 ← Adjacency.learnAdjacencies n n (adj_list.getD 1 matZero) node_vec
    let _adj_2 ← Adjacency.learnAdjacencies n n (adj_list.getD 2 matZero) node_vec
    .error .matmulMissingArg
  else
    .error (.adjListLength adj_list.length)

/-- The GNN layer object: construction-time sizes and the three trainable weight
matrices created by build, each of declared shape (n_features, n_features). -/
structure GNN where
  n_features : ℕ
  n_nodes : ℕ
  w0 : Mat
  w1 : Mat
  w2 : Mat

/-- GNN.call: for each hop k the product learned_Ak matmul X matmul wk, the three
products summed entrywise, then relu.  n is the node count and f the feature
dimension of X. -/
noncomputable def GNN.call (g : GNN) (n f : ℕ) (X A0 A1 A2 : Mat) : Mat :=
  let product_1 := matMul f (matMul n A0 X) g.w0
  let product_2 := matMul f (matMul n A1 X) g.w1
  let product_3 := matMul f (matMul n A2 X) g.w2
  matRelu (matAdd (matAdd product_1 product_2) product_3)

/-- State-passing form of GraphOperator.call: the method body never assigns to
any attribute of self, so the layer object after the call is the one before. -/
noncomputable def GraphOperator.callS (op : GraphOperator) (n m : ℕ) (adj : Mat) :
    Except LayerError (List Mat) × GraphOperator :=
  (op.call n m adj, op)

/-- State-passing form of Adjacency.call: the method body only reads the weight
attributes and never assigns to them. -/
noncomputable def Adjacency.callS (L : Adjacency) (n f : ℕ) (adj_list : List Mat)
    (node_vec : Mat) : Except LayerError (List Mat) × Adjacency :=
  (L.call n f adj_list node_vec, L)

/-- State-passing form of GNN.call: the method body only reads the weight
attributes and never assigns to them. -/
noncomputable def GNN.callS (g : GNN) (n f : ℕ) (X A0 A1 A2 : Mat) :
    Mat × GNN :=
  (g.call n f X A0 A1 A2, g)

/-- The full forward pipeline: power operators, then learned adjacencies, then
graph convolution, propagating any raised error to the caller. -/
noncomputable def pipeline (op : GraphOperator) (L : Adjacency) (g : GNN)
    (n m f : ℕ) (adj node_vec : Mat) : Except LayerError Mat := do
  let ops ← op.call n m adj
  let learned ← L.call n f ops node_vec
  return g.call n f node_vec (learned.getD 0 matZero) (learned.getD 1 matZero)
    (learned.getD 2 matZero)

/-- Two runs of the full pipeline on the same weights and inputs, with no
update between them: the pair of both results. -/
noncomputable def pipelineTwice (op : GraphOperator) (L : Adjacency) (g : GNN)
    (n m f : ℕ) (adj node_vec : Mat) :
    Except LayerError Mat × Except LayerError Mat :=
  (pipeline op L g n m f adj node_vec, pipeline op L g n m f adj node_vec)

/-- The 2-by-2 example adjacency matrix [[0,1],[1,0]] of the spec. -/
noncomputable def exAdj : Mat := fun i j =>
  if (i = 0 ∧ j = 1) ∨ (i = 1 ∧ j = 0) then 1 else 0

/-- The example node feature matrix [[0,0],[3,4]] of the spec. -/
noncomputable def exNodeVec : Mat := fun i t =>
  if i = 1 then (if t = 0 then 3 else if t = 1 then 4 else 0) else 0

/-- A matrix whose every entry is 2: a hop matrix value outside 0 and 1, as
produced by matrix powers when two distinct paths exist. -/
noncomputable def exTwoMat : Mat := fun _ _ => 2

/-- A hop matrix carrying the non-binary entry 2 at (0,1) and 0 elsewhere, the
shape of a matrix power of a graph with two distinct paths between one pair of
nodes. -/
noncomputable def exPowMat : Mat := fun i j => if i = 0 ∧ j = 1 then 2 else 0

/-- relu of zero is zero. -/
theorem relu_zero : relu 0 = 0 := by simp [relu]

/-- matMul respects shapes: an r-by-k matrix times a k-by-c matrix is r-by-c. -/
theorem matMul_isShaped {r k c : ℕ} {A B : Mat} (hA : IsShaped r k A)
    (hB : IsShaped k c B) : IsShaped r c (matMul k A B) := by
  intro i j h
  unfold matMul
  rcases h with h | h
  · exact Finset.sum_eq_zero fun t _ => by rw [hA i t (Or.inl h), zero_mul]
  · exact Finset.sum_eq_zero fun t _ => by rw [hB t j (Or.inr h), mul_zero]

/-- Sequencing after a raised error propagates the error. -/
theorem exceptBindError (e : LayerError) (f : Mat → Except LayerError (List Mat)) :
    (Except.error e >>= f : Except LayerError (List Mat)) = .error e := rfl

/-- Sequencing after a returned value continues with it. -/
theorem exceptBindOk (a : Mat) (f : Mat → Except LayerError (List Mat)) :
    (Except.ok a >>= f : Except LayerError (List Mat)) = f a := rfl

/-- The distance transform either raises the item-assignment TypeError or
returns the zero matrix: those are its only outcomes. -/
theorem learnAdjacencies_cases (r c : ℕ) (adj node_vec : Mat) :
    Adjacency.learnAdjacencies r c adj node_vec = .error .itemAssignment ∨
    Adjacency.learnAdjacencies r c adj node_vec = .ok matZero := by
  unfold Adjacency.learnAdjacencies
  split_ifs with h
  · exact Or.inl rfl
  · exact Or.inr rfl

/-- C1: For every square N-by-N adjacency matrix adj, GraphPowerOperator.apply
returns the ordered list of exactly three N-by-N matrices: A0 the identity
matrix, A1 = adj matmul adj, and A2 = A1 matmul adj. -/
theorem C1_graph_power_operator (op : GraphOperator) (n : ℕ) (adj : Mat) :
    op.call n n adj =
      .ok [matEye, matMul n adj adj, matMul n (matMul n adj adj) adj] := by
  unfold GraphOperator.call
  rw [if_pos rfl]

/-- C5: For every non-square input matrix, GraphPowerOperator.apply signals a
ShapeError instead of returning an operator set. -/
theorem C5_not_square_raises (op : GraphOperator) (n m : ℕ) (adj : Mat)
    (h : n ≠ m) : op.call n m adj = .error .notSquare := by
  unfold GraphOperator.call
  rw [if_neg h]

/-- Witness for C5 at the concrete 3-by-4 input of the spec. -/
theorem C5_not_square_raises_witness :
    GraphOperator.call ⟨2⟩ 3 4 matZero = .error .notSquare :=
  C5_not_square_raises ⟨2⟩ 3 4 matZero (by decide)

/-- C6: For every input list whose count of adjacency operators differs from 3,
LearnedAdjacency.apply signals the length assertion failure to the caller
before any transformation is computed. -/
theorem C6_adj_list_length_raises (L : Adjacency) (n f : ℕ)
    (adj_list : List Mat) (node_vec : Mat) (h : adj_list.length ≠ 3) :
    L.call n f adj_list node_vec = .error (.adjListLength adj_list.length) := by
  unfold Adjacency.call
  rw [if_neg h]

/-- Witness for C6 at a concrete list of two hop operators. -/
theorem C6_adj_list_length_raises_witness :
    Adjacency.call ⟨50, 50, matZero, matZero, matZero, matZero, matZero, matZero⟩
      2 2 [matZero, matZero] matZero = .error (.adjListLength 2) :=
  C6_adj_list_length_raises _ 2 2 [matZero, matZero] matZero (by decide)

/-- C7 counterexample: on the hop matrix with the non-binary entry 2 at (0,1)
and 0 elsewhere, the distance transform does not return an output with entry
(0,1) left at 0: it raises the item-assignment TypeError, because the matrix
also holds entries equal to 0. -/
theorem C7_nonbinary_entry_counterexample :
    Adjacency.learnAdjacencies 2 2 exPowMat exNodeVec = .error .itemAssignment := by
  unfold Adjacency.learnAdjacencies
  rw [if_pos]
  exact ⟨0, by decide, 0, by decide, Or.inl (by norm_num [exPowMat])⟩

/-- C7 amended: when every iterated entry of the hop matrix is neither 0 nor 1,
the distance transform signals no error and returns the all-zero matrix,
silently discarding every such connection; a 0 or 1 entry anywhere in the
iterated range instead makes the call raise the item-assignment TypeError. -/
theorem C7_nonbinary_entries_dropped (r c : ℕ) (adj node_vec : Mat)
    (h : ∀ i ∈ Finset.range r, ∀ j ∈ Finset.range c,
      adj i j ≠ 0 ∧ adj i j ≠ 1) :
    Adjacency.learnAdjacencies r c adj node_vec = .ok matZero := by
  have hneg : ¬ ∃ ik ∈ Finset.range r, ∃ jk ∈ Finset.range c,
      adj ik jk = 0 ∨ adj ik jk = 1 := by
    rintro ⟨i, hi, j, hj, h0 | h1⟩
    · exact (h i hi j hj).1 h0
    · exact (h i hi j hj).2 h1
  unfold Adjacency.learnAdjacencies
  rw [if_neg hneg]

/-- Witness for the amended C7 at the all-2s hop matrix. -/
theorem C7_nonbinary_entries_dropped_witness :
    Adjacency.learnAdjacencies 2 2 exTwoMat exNodeVec = .ok matZero :=
  C7_nonbinary_entries_dropped 2 2 exTwoMat exNodeVec
    (fun i _ j _ => ⟨by norm_num [exTwoMat], by norm_num [exTwoMat]⟩)

/-- C8: The configured power parameter is inert: two GraphPowerOperator layers
that differ only in power give identical outputs on every input, and every
returned operator set has exactly 3 members. -/
theorem C8_power_inert (p q n m : ℕ) (adj : Mat) :
    GraphOperator.call ⟨p⟩ n m adj = GraphOperator.call ⟨q⟩ n m adj ∧
    ∀ out, GraphOperator.call ⟨p⟩ n m adj = .ok out → out.length = 3 := by
  constructor
  · rfl
  · intro out h
    unfold GraphOperator.call at h
    by_cases hnm : n = m
    · rw [if_pos hnm] at h
      injection h with h2
      rw [← h2]
      rfl
    · rw [if_neg hnm] at h
      exact Except.noConfusion h

/-- Witness for C8 at concrete powers 2 and 7 on a square input. -/
theorem C8_power_inert_witness :
    GraphOperator.call ⟨2⟩ 2 2 matZero = GraphOperator.call ⟨7⟩ 2 2 matZero ∧
    ∀ out, GraphOperator.call ⟨2⟩ 2 2 matZero = .ok out → out.length = 3 :=
  C8_power_inert 2 7 2 2 matZero

/-- C2 evaluation: on the 2-by-2 spec example with adjacency [[0,1],[1,0]] and
features [[0,0],[3,4]], the distance transform never returns [[0,5],[5,0]]: at
the very first cell, whose entry is 0, the item assignment into the immutable
zero tensor raises TypeError, which the call propagates. -/
theorem C2_distance_transform_crashes :
    Adjacency.learnAdjacencies 2 2 exAdj exNodeVec = .error .itemAssignment := by
  unfold Adjacency.learnAdjacencies
  rw [if_pos]
  exact ⟨0, by decide, 0, by decide, Or.inl (by norm_num [exAdj])⟩

/-- C3: GNN.apply returns relu of the entrywise sum of the three per-hop
products learned_Ak matmul X matmul wk, and its output is n-by-f, the shape of
the input node feature matrix, whenever the inputs have their declared
shapes. -/
theorem C3_gnn_formula_and_shape (g : GNN) (n f : ℕ) (X A0 A1 A2 : Mat)
    (hX : IsShaped n f X) (h0 : IsShaped n n A0) (h1 : IsShaped n n A1)
    (h2 : IsShaped n n A2) (hw0 : IsShaped f f g.w0) (hw1 : IsShaped f f g.w1)
    (hw2 : IsShaped f f g.w2) :
    g.call n f X A0 A1 A2 =
      matRelu (matAdd (matAdd (matMul f (matMul n A0 X) g.w0)
        (matMul f (matMul n A1 X) g.w1)) (matMul f (matMul n A2 X) g.w2)) ∧
    IsShaped n f (g.call n f X A0 A1 A2) := by
  constructor
  · rfl
  · intro i j h
    have p0 := matMul_isShaped (matMul_isShaped h0 hX) hw0 i j h
    have p1 := matMul_isShaped (matMul_isShaped h1 hX) hw1 i j h
    have p2 := matMul_isShaped (matMul_isShaped h2 hX) hw2 i j h
    show relu (matMul f (matMul n A0 X) g.w0 i j +
      matMul f (matMul n A1 X) g.w1 i j + matMul f (matMul n A2 X) g.w2 i j) = 0
    rw [p0, p1, p2, add_zero, add_zero, relu_zero]

/-- Witness for C3 on concrete all-zero 2-by-2 inputs. -/
theorem C3_gnn_formula_and_shape_witness :
    IsShaped 2 2 (GNN.call ⟨2, 2, matZero, matZero, matZero⟩ 2 2 matZero matZero
      matZero matZero) :=
  (C3_gnn_formula_and_shape ⟨2, 2, matZero, matZero, matZero⟩ 2 2 matZero
    matZero matZero matZero (fun _ _ _ => rfl) (fun _ _ _ => rfl)
    (fun _ _ _ => rfl) (fun _ _ _ => rfl) (fun _ _ _ => rfl) (fun _ _ _ => rfl)
    (fun _ _ _ => rfl)).2

/-- C4 evaluation: when the hop list has length 3 and the flattened hop
dimension n * n differs from the declared weight dimension input_units, no
ShapeError is ever signalled: the swallowed shape check raises nothing, and
the call fails instead with one of the two TypeErrors of the broken forward
path (item assignment in the distance transform, or the single-argument
tf.matmul), neither of which depends on the mismatch. -/
theorem C4_shape_mismatch_swallowed (L : Adjacency) (n f : ℕ)
    (adj_list : List Mat) (node_vec : Mat) (hlen : adj_list.length = 3)
    (hmm : n * n ≠ L.input_units) :
    L.call n f adj_list node_vec = .error .itemAssignment ∨
    L.call n f adj_list node_vec = .error .matmulMissingArg := by
  unfold Adjacency.call
  rw [if_pos hlen]
  rcases learnAdjacencies_cases n n (adj_list.getD 0 matZero) node_vec with h0 | h0
  · left
    simp only [h0, exceptBindError]
  · rcases learnAdjacencies_cases n n (adj_list.getD 1 matZero) node_vec with h1 | h1
    · left
      simp only [h0, h1, exceptBindOk, exceptBindError]
    · rcases learnAdjacencies_cases n n (adj_list.getD 2 matZero) node_vec with h2 | h2
      · left
        simp only [h0, h1, h2, exceptBindOk, exceptBindError]
      · right
        simp only [h0, h1, h2, exceptBindOk, exceptBindError]

/-- Witness for C4: a layer built for max_nodes 50 called on three 2-by-2 zero
hop matrices signals no ShapeError, only a TypeError of the broken forward
path. -/
theorem C4_shape_mismatch_swallowed_witness :
    Adjacency.call ⟨50, 50, matZero, matZero, matZero, matZero, matZero,
      matZero⟩ 2 2 [matZero, matZero, matZero] matZero =
        .error .itemAssignment ∨
    Adjacency.call ⟨50, 50, matZero, matZero, matZero, matZero, matZero,
      matZero⟩ 2 2 [matZero, matZero, matZero] matZero =
        .error .matmulMissingArg :=
  C4_shape_mismatch_swallowed _ 2 2 _ _ rfl (by decide)

/-- C9: The forward pipeline is deterministic: two runs with identical weights
and identical inputs, with no update between them, yield identical results,
and a run that fails fails identically the second time. -/
theorem C9_pipeline_deterministic (op : GraphOperator) (L : Adjacency) (g : GNN)
    (n m f : ℕ) (adj node_vec : Mat) :
    (pipelineTwice op L g n m f adj node_vec).1 =
      (pipelineTwice op L g n m f adj node_vec).2 ∧
    ∀ e, (pipelineTwice op L g n m f adj node_vec).1 = .error e →
      (pipelineTwice op L g n m f adj node_vec).2 = .error e :=
  ⟨rfl, fun _ h => h⟩

/-- Witness for C9 on a concrete invalid (non-square) input. -/
theorem C9_pipeline_deterministic_witness :
    (pipelineTwice ⟨2⟩ ⟨50, 50, matZero, matZero, matZero, matZero, matZero,
      matZero⟩ ⟨50, 50, matZero, matZero, matZero⟩ 3 4 2 matZero matZero).1 =
    (pipelineTwice ⟨2⟩ ⟨50, 50, matZero, matZero, matZero, matZero, matZero,
      matZero⟩ ⟨50, 50, matZero, matZero, matZero⟩ 3 4 2 matZero matZero).2 :=
  (C9_pipeline_deterministic ⟨2⟩ ⟨50, 50, matZero, matZero, matZero, matZero,
    matZero, matZero⟩ ⟨50, 50, matZero, matZero, matZero⟩ 3 4 2 matZero
    matZero).1

/-- C10: No forward pass mutates any trainable weight: after each call the
layer object, and in particular every weight matrix of the Adjacency and GNN
layers, equals its value before the call. -/
theorem C10_forward_pass_frame (op : GraphOperator) (L : Adjacency) (g : GNN)
    (n m f : ℕ) (adj : Mat) (adj_list : List Mat)
    (node_vec X A0 A1 A2 : Mat) :
    (op.callS n m adj).2 = op ∧
    ((L.callS n f adj_list node_vec).2 = L ∧
      (L.callS n f adj_list node_vec).2.w0_1 = L.w0_1 ∧
      (L.callS n f adj_list node_vec).2.w0_2 = L.w0_2 ∧
      (L.callS n f adj_list node_vec).2.w1_1 = L.w1_1 ∧
      (L.callS n f adj_list node_vec).2.w1_2 = L.w1_2 ∧
      (L.callS n f adj_list node_vec).2.w2_1 = L.w2_1 ∧
      (L.callS n f adj_list node_vec).2.w2_2 = L.w2_2) ∧
    ((g.callS n f X A0 A1 A2).2 = g ∧
      (g.callS n f X A0 A1 A2).2.w0 = g.w0 ∧
      (g.callS n f X A0 A1 A2).2.w1 = g.w1 ∧
      (g.callS n f X A0 A1 A2).2.w2 = g.w2) :=
  ⟨rfl, ⟨rfl, rfl, rfl, rfl, rfl, rfl, rfl⟩, ⟨rfl, rfl, rfl, rfl⟩⟩
